import Mathlib

/-!
Verification of the keypoints news-backend pipeline.

We shallowly embed the pure core of the repository in Lean:
strings are lists of Unicode code points (`Str`), Python string
operations (`lower`, `strip`, `split`, substring test, slicing) are
translated directly, and each Python function under scrutiny becomes a
Lean definition with the same structure and constants.
-/

set_option maxRecDepth 100000

/-- Strings are modelled as lists of Unicode code points. -/
abbrev Str := List Nat

/-- Convert a Lean string literal into the model representation. -/
def str (s : String) : Str := s.toList.map Char.toNat

/-- ASCII whitespace, the characters matched by Python `\s` on ASCII input. -/
def isWs (c : Nat) : Bool := c == 32 || c == 9 || c == 10 || c == 13 || c == 11 || c == 12

/-- Python `str.lower()` restricted to ASCII letters. -/
def lowerCh (c : Nat) : Nat := if 65 ≤ c ∧ c ≤ 90 then c + 32 else c

/-- Lowercase a whole string, as Python `s.lower()`. -/
def pyLower (s : Str) : Str := s.map lowerCh

/-- `a.isPrefixOfB b` : `a` is a prefix of `b` (executable). -/
def prefixOfB : Str → Str → Bool
  | [], _ => true
  | _ :: _, [] => false
  | n :: ns, h :: hs => n == h && prefixOfB ns hs

/-- Python `needle in hay` substring test. -/
def containsStr : Str → Str → Bool
  | [], needle => needle.isEmpty
  | c :: cs, needle => prefixOfB needle (c :: cs) || containsStr cs needle

/-- Python `s.strip()`: drop ASCII whitespace at both ends. -/
def pyStrip (s : Str) : Str :=
  ((s.dropWhile isWs).reverse.dropWhile isWs).reverse

/-- Helper for `pyWords`: accumulate the current word (reversed). -/
def pyWordsAux : Str → Str → List Str
  | [], acc => if acc.isEmpty then [] else [acc.reverse]
  | c :: cs, acc =>
    if isWs c then
      if acc.isEmpty then pyWordsAux cs [] else acc.reverse :: pyWordsAux cs []
    else pyWordsAux cs (c :: acc)

/-- Python `s.split()`: split on whitespace runs, dropping empty pieces. -/
def pyWords (s : Str) : List Str := pyWordsAux s []

/-- Does `text` contain any of the keywords? This is the repeated
`for keyword in kws: if keyword in text` pattern of `scoring.py`. -/
def kwAny (text : Str) (kws : List Str) : Bool :=
  kws.any fun k => containsStr text k

/-- Python `max` on rationals, kept executable. -/
def pyMax (a b : ℚ) : ℚ := if a ≤ b then b else a

/-- Python `min` on rationals, kept executable. -/
def pyMin (a b : ℚ) : ℚ := if a ≤ b then a else b

lemma pyLower_append (a b : Str) : pyLower (a ++ b) = pyLower a ++ pyLower b :=
  List.map_append _ a b

lemma containsStr_nil_needle (h : Str) : containsStr h [] = true := by
  cases h <;> simp [containsStr, prefixOfB, List.isEmpty]

lemma prefixOfB_append_self (n rest : Str) : prefixOfB n (n ++ rest) = true := by
  induction n with
  | nil => rfl
  | cons c cs ih => simp [prefixOfB, ih]

lemma containsStr_self_append (n rest : Str) : containsStr (n ++ rest) n = true := by
  cases n with
  | nil => simpa using containsStr_nil_needle rest
  | cons c cs =>
    show containsStr (c :: (cs ++ rest)) (c :: cs) = true
    have : prefixOfB (c :: cs) (c :: cs ++ rest) = true := prefixOfB_append_self (c :: cs) rest
    simp [containsStr]
    left
    simpa using this

lemma containsStr_append_left {t n : Str} (p : Str) (h : containsStr t n = true) :
    containsStr (p ++ t) n = true := by
  induction p with
  | nil => simpa using h
  | cons c cs ih => simp [containsStr, ih]

lemma kwAny_append_left {t : Str} {ks : List Str} (p : Str) (h : kwAny t ks = true) :
    kwAny (p ++ t) ks = true := by
  rcases List.any_eq_true.1 h with ⟨k, hk, hc⟩
  exact List.any_eq_true.2 ⟨k, hk, containsStr_append_left p hc⟩

lemma kwAny_of_mem_head {ks : List Str} {k : Str} (hk : k ∈ ks) (rest : Str) :
    kwAny (k ++ rest) ks = true :=
  List.any_eq_true.2 ⟨k, hk, containsStr_self_append k rest⟩

lemma le_pyMax_left (a b : ℚ) : a ≤ pyMax a b := by
  unfold pyMax; split_ifs with h <;> linarith

lemma pyMax_le {a b c : ℚ} (h₁ : a ≤ c) (h₂ : b ≤ c) : pyMax a b ≤ c := by
  unfold pyMax; split_ifs <;> assumption

lemma pyMax_nonneg {a b : ℚ} (h₁ : 0 ≤ a) (h₂ : 0 ≤ b) : 0 ≤ pyMax a b := by
  unfold pyMax; split_ifs <;> assumption

lemma pyMin_le_right (a b : ℚ) : pyMin a b ≤ b := by
  unfold pyMin; split_ifs with h <;> linarith

lemma pyMin_nonneg {a b : ℚ} (h₁ : 0 ≤ a) (h₂ : 0 ≤ b) : 0 ≤ pyMin a b := by
  unfold pyMin; split_ifs <;> assumption

lemma pyMin_mono_left {a b c : ℚ} (h : a ≤ b) : pyMin a c ≤ pyMin b c := by
  unfold pyMin; split_ifs <;> linarith

namespace Scoring
/-!
Embedding of `src/app/scoring.py`, `calculate_content_quality_score`
(lines 53–165).  The float arithmetic of the source is modelled with
exact rationals; the only non-integer constant is the trust multiplier
`1.2`.
-/

/-- `indian_keywords` of `calculate_content_quality_score`. -/
def indianKeywords : List Str :=
  [str "india", str "indian", str "delhi", str "mumbai", str "bengaluru", str "bangalore", str "chennai",
   str "hyderabad", str "pune", str "kolkata", str "ahmedabad", str "surat", str "jaipur", str "lucknow",
   str "kanpur", str "nagpur", str "indore", str "thane", str "bhopal", str "visakhapatnam", str "pimpri",
   str "patna", str "vadodara", str "ludhiana", str "agra", str "nashik", str "faridabad", str "meerut",
   str "rajkot", str "kalyan", str "vasai", str "varanasi", str "srinagar", str "aurangabad", str "dhanbad",
   str "amritsar", str "navi mumbai", str "allahabad", str "ranchi", str "howrah", str "coimbatore",
   str "jabalpur", str "gwalior", str "vijayawada", str "jodhpur", str "madurai", str "raipur", str "kota",
   str "guwahati", str "chandigarh", str "modi", str "bjp", str "congress", str "parliament", str "lok sabha",
   str "rajya sabha", str "supreme court", str "high court", str "cbi", str "ed", str "rbi", str "sebi",
   str "isro", str "drdo", str "iit", str "iim", str "upsc", str "neet", str "jee", str "cbse", str "icse",
   str "bollywood", str "tollywood", str "kollywood", str "ipl", str "bcci", str "cricket", str "hockey",
   str "kabaddi", str "badminton", str "wrestling", str "boxing", str "shooting", str "archery",
   str "rupee", str "nse", str "bse", str "sensex", str "nifty", str "lic", str "sbi", str "hdfc", str "icici",
   str "tata", str "reliance", str "adani", str "ambani", str "ratan tata", str "mukesh ambani"]

/-- `breaking_keywords` of `calculate_content_quality_score`. -/
def breakingKeywords : List Str :=
  [str "breaking", str "urgent", str "alert", str "live", str "developing", str "just in", str "flash"]

/-- `political_keywords`. -/
def politicalKeywords : List Str :=
  [str "election", str "vote", str "government", str "minister", str "parliament", str "policy",
   str "law", str "court", str "judge"]

/-- `social_keywords`. -/
def socialKeywords : List Str :=
  [str "viral", str "trending", str "social media", str "twitter", str "facebook", str "instagram",
   str "youtube"]

/-- `trusted_sources` of `calculate_content_quality_score`. -/
def trustedSources : List Str :=
  [str "bbc", str "reuters", str "ap", str "ndtv", str "times of india", str "hindu",
   str "indian express", str "hindustan times"]

/-- First freshness keyword group (`'today', 'yesterday', ...` → +40). -/
def freshKeywords : List Str :=
  [str "today", str "yesterday", str "latest", str "new", str "recent"]

/-- Second freshness keyword group (`'update', 'report', ...` → +20). -/
def updateKeywords : List Str :=
  [str "update", str "report", str "announce", str "reveal"]

/-- `regional_boost`: 50 once any Indian keyword occurs in the text. -/
def regionalBoost (allText : Str) : ℚ :=
  if kwAny allText indianKeywords then 50 else 0

/-- `breaking_score`: 900 once any breaking keyword occurs. -/
def breakingScore (allText : Str) : ℚ :=
  if kwAny allText breakingKeywords then 900 else 0

/-- `political_score`: the max-accumulate loop yields 700 or 0. -/
def politicalScore (allText : Str) : ℚ :=
  if kwAny allText politicalKeywords then 700 else 0

/-- `social_score`: 500 or 0. -/
def socialScore (allText : Str) : ℚ :=
  if kwAny allText socialKeywords then 500 else 0

/-- `source_multiplier`: 1.2 for trusted sources else 1.0. -/
def sourceMultiplier (source : Str) : ℚ :=
  if kwAny (pyLower source) trustedSources then 6/5 else 1

/-- Title contribution to `base_score`. -/
def titleBase (title : Str) : ℚ :=
  if title.isEmpty then 0
  else if 50 < title.length then 80
  else if 30 < title.length then 60
  else 20

/-- Description contribution to `base_score`. -/
def descBase (description : Str) : ℚ :=
  if description.isEmpty then 0
  else if 500 < description.length then 120
  else if 200 < description.length then 80
  else 40

/-- Image contribution to `base_score`. -/
def imageBase (imageUrl : Str) : ℚ :=
  if imageUrl.isEmpty then 0
  else if containsStr (pyLower imageUrl) (str "cdn") then 60
  else 40

/-- Freshness/relevance contribution to `base_score`. -/
def freshnessBase (allText : Str) : ℚ :=
  (if kwAny allText freshKeywords then 40 else 0) +
  (if kwAny allText updateKeywords then 20 else 0)

/-- `calculate_content_quality_score` (`src/app/scoring.py`, 53–165).
`all_text = f"{title} {description}".lower()`; the final score is
`min((importance + base + regional) * multiplier, 1000)`. -/
def calculate_content_quality_score (title imageUrl description source : Str) : ℚ :=
  let allText := pyLower (title ++ [32] ++ description)
  let importance := pyMax (breakingScore allText) (pyMax (politicalScore allText) (socialScore allText))
  let base := titleBase title + descBase description + imageBase imageUrl + freshnessBase allText
  pyMin ((importance + base + regionalBoost allText) * sourceMultiplier source) 1000

lemma regionalBoost_nonneg (x : Str) : 0 ≤ regionalBoost x := by
  unfold regionalBoost; split_ifs <;> norm_num

lemma breakingScore_nonneg (x : Str) : 0 ≤ breakingScore x := by
  unfold breakingScore; split_ifs <;> norm_num

lemma politicalScore_nonneg (x : Str) : 0 ≤ politicalScore x := by
  unfold politicalScore; split_ifs <;> norm_num

lemma socialScore_nonneg (x : Str) : 0 ≤ socialScore x := by
  unfold socialScore; split_ifs <;> norm_num

lemma breakingScore_le (x : Str) : breakingScore x ≤ 900 := by
  unfold breakingScore; split_ifs <;> norm_num

lemma politicalScore_le (x : Str) : politicalScore x ≤ 900 := by
  unfold politicalScore; split_ifs <;> norm_num

lemma socialScore_le (x : Str) : socialScore x ≤ 900 := by
  unfold socialScore; split_ifs <;> norm_num

lemma titleBase_nonneg (t : Str) : 0 ≤ titleBase t := by
  unfold titleBase; split_ifs <;> norm_num

lemma descBase_nonneg (d : Str) : 0 ≤ descBase d := by
  unfold descBase; split_ifs <;> norm_num

lemma imageBase_nonneg (i : Str) : 0 ≤ imageBase i := by
  unfold imageBase; split_ifs <;> norm_num

lemma freshnessBase_nonneg (x : Str) : 0 ≤ freshnessBase x := by
  unfold freshnessBase; split_ifs <;> norm_num

lemma sourceMultiplier_nonneg (s : Str) : 0 ≤ sourceMultiplier s := by
  unfold sourceMultiplier; split_ifs <;> norm_num

/-- A keyword-triggered bonus can only grow when text is prepended. -/
lemma kwScore_prepend (p t : Str) (ks : List Str) (v : ℚ) (hv : 0 ≤ v) :
    (if kwAny t ks then v else 0) ≤ (if kwAny (p ++ t) ks then v else 0) := by
  by_cases h : kwAny t ks = true
  · rw [if_pos h, if_pos (kwAny_append_left p h)]
  · rw [if_neg h]
    split_ifs <;> simp [hv]

/-- `titleBase` never shrinks when the title is extended on the left. -/
lemma titleBase_prepend (p t : Str) (hp : p ≠ []) : titleBase t ≤ titleBase (p ++ t) := by
  have hne : (p ++ t).isEmpty = false := by
    cases p with
    | nil => exact absurd rfl hp
    | cons a l => rfl
  unfold titleBase
  simp only [hne, Bool.false_eq_true, if_false, List.length_append]
  by_cases ht : t.isEmpty = true
  · simp only [ht, if_true]
    split_ifs <;> norm_num
  · simp only [ht, Bool.false_eq_true, if_false]
    split_ifs <;> first | (exfalso; omega) | norm_num

/-- Every breaking keyword is already lowercase. -/
lemma breakingKeywords_lower : ∀ kw ∈ breakingKeywords, pyLower kw = kw := by decide

end Scoring

/-- **C2**: for every title, image URL, description, and source input, the
quality score returned by `calculate_content_quality_score` satisfies
`0 ≤ score ≤ 1000`. -/
theorem quality_score_bounded (title imageUrl description source : Str) :
    0 ≤ Scoring.calculate_content_quality_score title imageUrl description source ∧
    Scoring.calculate_content_quality_score title imageUrl description source ≤ 1000 := by
  unfold Scoring.calculate_content_quality_score
  constructor
  · apply pyMin_nonneg _ (by norm_num)
    apply mul_nonneg _ (Scoring.sourceMultiplier_nonneg _)
    have h1 := Scoring.breakingScore_nonneg (pyLower (title ++ [32] ++ description))
    have h2 := Scoring.politicalScore_nonneg (pyLower (title ++ [32] ++ description))
    have h3 := Scoring.socialScore_nonneg (pyLower (title ++ [32] ++ description))
    have h4 := Scoring.titleBase_nonneg title
    have h5 := Scoring.descBase_nonneg description
    have h6 := Scoring.imageBase_nonneg imageUrl
    have h7 := Scoring.freshnessBase_nonneg (pyLower (title ++ [32] ++ description))
    have h8 := Scoring.regionalBoost_nonneg (pyLower (title ++ [32] ++ description))
    have h9 := pyMax_nonneg h2 h3
    have h10 := pyMax_nonneg h1 h9
    linarith
  · exact pyMin_le_right _ _

/-- **C3** counterexample: inserting the breaking keyword `urgent` into the
middle of the title `breaking today` (producing `breaking tourgentday`)
strictly decreases the quality score, because the insertion destroys the
`today` freshness-keyword match while the breaking tier was already at its
maximum.  So score monotonicity under arbitrary-position keyword insertion
fails. -/
theorem quality_score_insertion_counterexample :
    str "breaking tourgentday" = str "breaking to" ++ str "urgent" ++ str "day" ∧
    Scoring.calculate_content_quality_score (str "breaking tourgentday") [] [] (str "x") <
      Scoring.calculate_content_quality_score (str "breaking today") [] [] (str "x") := by
  constructor
  · decide
  · simp +decide only [Scoring.calculate_content_quality_score, Scoring.breakingScore,
      Scoring.politicalScore, Scoring.socialScore, Scoring.regionalBoost,
      Scoring.sourceMultiplier, Scoring.titleBase, Scoring.descBase, Scoring.imageBase,
      Scoring.freshnessBase, pyMin, pyMax]
    norm_num

/-- **C3** (amended): prepending a breaking-news keyword (followed by a space)
to the title, keeping image, description and source fixed, never decreases
the quality score.  (This is keyword insertion that leaves the original
text intact as a contiguous block; the counterexample shows the original
arbitrary-position form is false.) -/
theorem quality_score_breaking_prepend_mono (kw title imageUrl description source : Str)
    (hkw : kw ∈ Scoring.breakingKeywords) :
    Scoring.calculate_content_quality_score title imageUrl description source ≤
    Scoring.calculate_content_quality_score (kw ++ [32] ++ title) imageUrl description source := by
  have hkwl : pyLower kw = kw := Scoring.breakingKeywords_lower kw hkw
  have h32 : pyLower [32] = [32] := by decide
  have hAT : pyLower (kw ++ [32] ++ title ++ [32] ++ description) =
      kw ++ ([32] ++ pyLower (title ++ [32] ++ description)) := by
    simp only [List.append_assoc, pyLower_append, hkwl, h32]
  unfold Scoring.calculate_content_quality_score
  rw [hAT]
  apply pyMin_mono_left
  apply mul_le_mul_of_nonneg_right _ (Scoring.sourceMultiplier_nonneg source)
  have hbrk : Scoring.breakingScore (kw ++ ([32] ++ pyLower (title ++ [32] ++ description))) = 900 := by
    unfold Scoring.breakingScore
    rw [if_pos (kwAny_of_mem_head hkw _)]
  have himp_old :
      pyMax (Scoring.breakingScore (pyLower (title ++ [32] ++ description)))
        (pyMax (Scoring.politicalScore (pyLower (title ++ [32] ++ description)))
          (Scoring.socialScore (pyLower (title ++ [32] ++ description)))) ≤ 900 :=
    pyMax_le (Scoring.breakingScore_le _)
      (pyMax_le (Scoring.politicalScore_le _) (Scoring.socialScore_le _))
  have himp_new :
      (900 : ℚ) ≤ pyMax (Scoring.breakingScore (kw ++ ([32] ++ pyLower (title ++ [32] ++ description))))
        (pyMax (Scoring.politicalScore (kw ++ ([32] ++ pyLower (title ++ [32] ++ description))))
          (Scoring.socialScore (kw ++ ([32] ++ pyLower (title ++ [32] ++ description))))) := by
    rw [← hbrk]
    exact le_pyMax_left _ _
  have htitle : Scoring.titleBase title ≤ Scoring.titleBase (kw ++ [32] ++ title) := by
    have : kw ++ [32] ++ title = (kw ++ [32]) ++ title := by simp [List.append_assoc]
    rw [this]
    exact Scoring.titleBase_prepend (kw ++ [32]) title (by simp)
  have hfresh : Scoring.freshnessBase (pyLower (title ++ [32] ++ description)) ≤
      Scoring.freshnessBase (kw ++ ([32] ++ pyLower (title ++ [32] ++ description))) := by
    unfold Scoring.freshnessBase
    have e : kw ++ ([32] ++ pyLower (title ++ [32] ++ description)) =
        (kw ++ [32]) ++ pyLower (title ++ [32] ++ description) := by simp [List.append_assoc]
    rw [e]
    have := Scoring.kwScore_prepend (kw ++ [32]) (pyLower (title ++ [32] ++ description))
      Scoring.freshKeywords (40 : ℚ) (by norm_num)
    have := Scoring.kwScore_prepend (kw ++ [32]) (pyLower (title ++ [32] ++ description))
      Scoring.updateKeywords (20 : ℚ) (by norm_num)
    linarith [Scoring.kwScore_prepend (kw ++ [32]) (pyLower (title ++ [32] ++ description))
        Scoring.freshKeywords (40 : ℚ) (by norm_num),
      Scoring.kwScore_prepend (kw ++ [32]) (pyLower (title ++ [32] ++ description))
        Scoring.updateKeywords (20 : ℚ) (by norm_num)]
  have hreg : Scoring.regionalBoost (pyLower (title ++ [32] ++ description)) ≤
      Scoring.regionalBoost (kw ++ ([32] ++ pyLower (title ++ [32] ++ description))) := by
    unfold Scoring.regionalBoost
    have e : kw ++ ([32] ++ pyLower (title ++ [32] ++ description)) =
        (kw ++ [32]) ++ pyLower (title ++ [32] ++ description) := by simp [List.append_assoc]
    rw [e]
    exact Scoring.kwScore_prepend (kw ++ [32]) _ _ (50 : ℚ) (by norm_num)
  linarith

/-- Witness for the amended C3 theorem at a concrete input. -/
theorem quality_score_breaking_prepend_mono_witness :
    str "breaking" ∈ Scoring.breakingKeywords ∧
    Scoring.calculate_content_quality_score (str "modi wins") [] [] (str "x") ≤
      Scoring.calculate_content_quality_score
        (str "breaking" ++ [32] ++ str "modi wins") [] [] (str "x") :=
  ⟨by decide, quality_score_breaking_prepend_mono _ _ _ _ _ (by decide)⟩

namespace Db
/-!
Embedding of `src/app/db.py`, `map_source_to_final_category`
(lines 283–348).
-/

/-- `indian_cities_states`: region names mapped to `"india"`. -/
def indianCitiesStates : List Str :=
  [str "mumbai", str "delhi", str "chennai", str "hyderabad", str "pune", str "kolkata",
   str "maharashtra", str "tamil nadu", str "telangana", str "west bengal", str "ncr",
   str "new delhi", str "gurgaon", str "noida", str "ahmedabad", str "surat", str "jaipur",
   str "lucknow", str "kanpur", str "nagpur", str "indore", str "thane", str "bhopal",
   str "visakhapatnam", str "pimpri", str "patna", str "vadodara", str "ludhiana",
   str "agra", str "nashik", str "faridabad", str "meerut", str "rajkot", str "kalyan",
   str "vasai", str "varanasi", str "srinagar", str "aurangabad", str "dhanbad",
   str "amritsar", str "navi mumbai", str "allahabad", str "ranchi", str "howrah",
   str "coimbatore", str "jabalpur", str "gwalior", str "vijayawada", str "jodhpur",
   str "madurai", str "raipur", str "kota", str "guwahati", str "chandigarh"]

/-- `specific_mappings`: the exact-match table for compound labels. -/
def specificMappings : List (Str × Str) :=
  [(str "indian cinema and bollywood", str "entertainment"),
   (str "indian celebrity", str "entertainment"),
   (str "indian sports", str "sports"),
   (str "indian politics", str "politics"),
   (str "indian education", str "education"),
   (str "indian scandal and crime", str "crime"),
   (str "trending in bengaluru and india", str "trending"),
   (str "international", str "world"),
   (str "india", str "india")]

/-- `priority_list`: ordered base-category keywords for partial matching. -/
def priorityList : List Str :=
  [str "trending", str "politics", str "education", str "sports", str "entertainment",
   str "celebrity", str "cinema", str "crime", str "scandal", str "technology",
   str "world", str "business", str "health", str "science"]

/-- Python `key in dict` / `dict[key]` over the exact-match table. -/
def lookupTable (m : List (Str × Str)) (k : Str) : Option Str :=
  (m.find? fun p => p.1 == k).map Prod.snd

/-- `map_source_to_final_category` (`src/app/db.py`, 283–348):
Bengaluru check, region-name substring match, exact-match table,
priority-keyword match, generic india fallback, identity fallback —
in the code's order. -/
def map_source_to_final_category (source_category : Str) : Str :=
  let source_lower := pyStrip (pyLower source_category)
  if containsStr source_lower (str "bengaluru") || containsStr source_lower (str "bangalore") then
    str "bengaluru"
  else if indianCitiesStates.any (fun c => containsStr source_lower c) then
    str "india"
  else
    match lookupTable specificMappings source_lower with
    | some v => v
    | none =>
      match priorityList.find? (fun c => containsStr source_lower (pyLower c)) with
      | some c => c
      | none =>
        if containsStr source_lower (str "indian") || containsStr source_lower (str "india") then
          str "india"
        else source_category

end Db

/-- **C6** counterexample: the label `trending in bengaluru and india` is a key
of the exact-match table (with entry `trending`), yet the mapper returns
`bengaluru`, because the code checks the Bengaluru/region-name substrings
*before* consulting the exact-match table — the spec's rule order (table
first) does not match the code. -/
theorem category_mapper_counterexample :
    Db.lookupTable Db.specificMappings
        (pyStrip (pyLower (str "trending in bengaluru and india"))) = some (str "trending") ∧
    Db.map_source_to_final_category (str "trending in bengaluru and india") = str "bengaluru" ∧
    str "bengaluru" ≠ str "trending" := by
  refine ⟨by decide, by decide, by decide⟩

/-- **C6** (amended): the category mapper applies its rules in the code's
order — Bengaluru check first, then region-name substring match, then the
exact-match table, then priority keywords, then the india fallback, then
identity.  Consequently a label present in the exact-match table maps to
its table entry provided it does not contain `bengaluru`/`bangalore` or
any region name as a substring. -/
theorem category_mapper_table_entry (label v : Str)
    (hv : Db.lookupTable Db.specificMappings (pyStrip (pyLower label)) = some v)
    (hb : containsStr (pyStrip (pyLower label)) (str "bengaluru") = false)
    (hb2 : containsStr (pyStrip (pyLower label)) (str "bangalore") = false)
    (hc : Db.indianCitiesStates.all
        (fun c => !containsStr (pyStrip (pyLower label)) c) = true) :
    Db.map_source_to_final_category label = v := by
  unfold Db.map_source_to_final_category
  have hany : Db.indianCitiesStates.any
      (fun c => containsStr (pyStrip (pyLower label)) c) = false := by
    rw [← Bool.not_eq_true]
    intro h
    rcases List.any_eq_true.1 h with ⟨c, hcm, hcc⟩
    have := List.all_eq_true.1 hc c hcm
    simp [hcc] at this
  simp only [hb, hb2, hany, Bool.or_self, Bool.false_eq_true, if_false, hv]

/-- Witness for the amended C6 theorem: the table label `indian politics`
contains no region name and maps to its table entry `politics`. -/
theorem category_mapper_table_entry_witness :
    Db.lookupTable Db.specificMappings
        (pyStrip (pyLower (str "indian politics"))) = some (str "politics") ∧
    Db.map_source_to_final_category (str "indian politics") = str "politics" :=
  ⟨by decide, category_mapper_table_entry _ _ (by decide) (by decide) (by decide) (by decide)⟩

namespace Merge
/-!
Embedding of the duplicate-detection part of `merge_news_files`
(`src/main.py`, lines 286–318).  File IO and metadata bookkeeping around
it are plumbing; the articles of all temp files are already concatenated
into the input list.  The dedup loop reads only the `title` and `link`
keys of each article dict; `other` stands for the remaining payload.
-/

/-- An article as seen by the merge step. -/
structure Article where
  title : Str
  link : Str
  other : Nat
deriving DecidableEq

/-- `title = article.get('title', '').strip().lower()`. -/
def normTitle (a : Article) : Str := pyLower (pyStrip a.title)

/-- The dedup key `(title_key, link_key)`:
first 50 chars of the normalized title, link up to the query string. -/
def keyOf (a : Article) : Str × Str :=
  ((normTitle a).take 50, (pyStrip a.link).takeWhile (fun c => !(c == 63)))

/-- Inner similarity test of the dedup loop: is the (normalized) new
`title` >80%-token-similar to the kept article's normalized title `et`?
`similarity = overlap / max(|words|, |words'|) > 0.8` becomes the exact
cross-multiplied comparison `4 * max < 5 * overlap`. -/
def similarTo (title et : Str) : Bool :=
  !et.isEmpty && decide (10 < et.length) &&
    (let tw := (pyWords title).dedup
     let ew := (pyWords et).dedup
     !tw.isEmpty && !ew.isEmpty &&
       decide (4 * max tw.length ew.length < 5 * (tw.filter (· ∈ ew)).length))

/-- `is_duplicate`: the similarity scan over previously kept articles. -/
def isDup (kept : List Article) (title : Str) : Bool :=
  !title.isEmpty && decide (10 < title.length) &&
    kept.any fun e => similarTo title (normTitle e)

/-- The loop of `merge_news_files` with its explicit `seen` key set:
an article is appended iff its key is not in `seen` and it is not
similarity-duplicate; exactly then its key joins `seen`. -/
def dedupAuxSrc : List (Str × Str) → List Article → List Article → List Article
  | _, kept, [] => kept
  | seen, kept, a :: rest =>
    if !seen.contains (keyOf a) && !isDup kept (normTitle a) then
      dedupAuxSrc (seen ++ [keyOf a]) (kept ++ [a]) rest
    else
      dedupAuxSrc seen kept rest

/-- The dedup step of `merge_news_files` on the concatenated article list. -/
def merge_dedup (l : List Article) : List Article := dedupAuxSrc [] [] l

/-- The spec's characterization of the keep decision: the key differs from
every previously *kept* article's key, and no previously kept article is
>80%-token-similar (with both titles longer than 10 characters). -/
def keepSpec (kept : List Article) (a : Article) : Bool :=
  !(kept.map keyOf).contains (keyOf a) && !isDup kept (normTitle a)

/-- Dedup as described by the spec sentence, testing against kept articles
only. -/
def dedupSpecAux : List Article → List Article → List Article
  | kept, [] => kept
  | kept, a :: rest =>
    if keepSpec kept a then dedupSpecAux (kept ++ [a]) rest else dedupSpecAux kept rest

/-- Spec-side dedup. -/
def dedupSpec (l : List Article) : List Article := dedupSpecAux [] l

/-- The `seen` set of the source loop is exactly the key image of the kept
list, so the source loop and the spec-side loop agree. -/
lemma dedupAuxSrc_eq_spec :
    ∀ (rest : List Article) (seen : List (Str × Str)) (kept : List Article),
      seen = kept.map keyOf → dedupAuxSrc seen kept rest = dedupSpecAux kept rest := by
  intro rest
  induction rest with
  | nil => intro seen kept h; rfl
  | cons a rest ih =>
    intro seen kept h
    subst h
    show dedupAuxSrc _ _ (a :: rest) = dedupSpecAux _ (a :: rest)
    unfold dedupAuxSrc dedupSpecAux keepSpec
    by_cases hk : (!(kept.map keyOf).contains (keyOf a) && !isDup kept (normTitle a)) = true
    · rw [if_pos hk, if_pos hk]
      have : kept.map keyOf ++ [keyOf a] = (kept ++ [a]).map keyOf := by
        simp
      rw [this]
      exact ih _ _ rfl
    · rw [if_neg hk, if_neg hk]
      exact ih _ _ rfl

/-- Every element of `kept` was keepable against the elements before it. -/
def Stable (kept : List Article) : Prop :=
  ∀ pre a post, kept = pre ++ a :: post → keepSpec pre a = true

lemma stable_nil : Stable [] := by
  intro pre a post h
  exact absurd h.symm (List.append_ne_nil_of_right_ne_nil pre (List.cons_ne_nil a post))

lemma stable_append {kept : List Article} {a : Article}
    (h : Stable kept) (hk : keepSpec kept a = true) : Stable (kept ++ [a]) := by
  intro pre x post hd
  rcases List.eq_nil_or_concat post with rfl | ⟨post', y, rfl⟩
  · have h2 : kept ++ [a] = pre ++ [x] := hd
    obtain ⟨h3, h4⟩ := List.append_inj' h2 rfl
    obtain rfl : a = x := by injection h4
    obtain rfl : kept = pre := h3
    exact hk
  · have h2 : kept ++ [a] = (pre ++ x :: post') ++ [y] := by
      rw [hd]; simp
    obtain ⟨h3, h4⟩ := List.append_inj' h2 rfl
    obtain rfl : a = y := by injection h4
    exact h pre x post' h3

lemma stable_dedupSpecAux :
    ∀ (rest kept : List Article), Stable kept → Stable (dedupSpecAux kept rest) := by
  intro rest
  induction rest with
  | nil => intro kept h; exact h
  | cons a rest ih =>
    intro kept h
    unfold dedupSpecAux
    by_cases hk : keepSpec kept a = true
    · rw [if_pos hk]; exact ih _ (stable_append h hk)
    · rw [if_neg hk]; exact ih _ h

lemma dedupSpecAux_fixed :
    ∀ (rest kept : List Article), Stable (kept ++ rest) → dedupSpecAux kept rest = kept ++ rest := by
  intro rest
  induction rest with
  | nil => intro kept _; simp [dedupSpecAux]
  | cons a rest ih =>
    intro kept h
    have hk : keepSpec kept a = true := h kept a rest rfl
    unfold dedupSpecAux
    rw [if_pos hk]
    have h2 : Stable ((kept ++ [a]) ++ rest) := by
      have : (kept ++ [a]) ++ rest = kept ++ a :: rest := by simp
      rw [this]; exact h
    rw [ih (kept ++ [a]) h2]
    simp

end Merge

/-- **C4** counterexample: the second article is the first-seen (and only)
article of its dedup key — both its title prefix and its query-stripped
URL differ from the first article's — yet the merge step drops it, because
its title has 5 of 6 tokens (>80%) in common with the first kept title.
So "keeps the first-seen article of each unique key" is false as an
absolute guarantee. -/
theorem merge_dedup_counterexample :
    Merge.keyOf ⟨str "alpha beta gamma delta epsilon two", str "http://b.example/2", 1⟩ ≠
      Merge.keyOf ⟨str "alpha beta gamma delta epsilon one", str "http://a.example/1", 0⟩ ∧
    Merge.merge_dedup
        [⟨str "alpha beta gamma delta epsilon one", str "http://a.example/1", 0⟩,
         ⟨str "alpha beta gamma delta epsilon two", str "http://b.example/2", 1⟩] =
      [⟨str "alpha beta gamma delta epsilon one", str "http://a.example/1", 0⟩] :=
  ⟨by decide, by decide⟩

/-- **C4** (amended): the merge/dedup step keeps an article exactly when its
`(first-50-chars-of-normalized-title, URL-without-query)` key differs from
every previously kept article's key AND its title does not share more than
80% token overlap with any previously kept article's title (both titles
longer than 10 characters for the similarity check to apply).  In
particular the first-seen article of a fresh key may still be dropped by
the similarity rule (see the counterexample). -/
theorem merge_dedup_keep_characterization (l : List Merge.Article) :
    Merge.merge_dedup l = Merge.dedupSpec l :=
  Merge.dedupAuxSrc_eq_spec l [] [] rfl

/-- **C5**: the merge/dedup step is idempotent — running it on its own
output removes nothing. -/
theorem merge_dedup_idempotent (l : List Merge.Article) :
    Merge.merge_dedup (Merge.merge_dedup l) = Merge.merge_dedup l := by
  have e : ∀ x : List Merge.Article, Merge.merge_dedup x = Merge.dedupSpec x := fun x =>
    Merge.dedupAuxSrc_eq_spec x [] [] rfl
  rw [e, e]
  unfold Merge.dedupSpec
  have hst : Merge.Stable (Merge.dedupSpecAux [] l) :=
    Merge.stable_dedupSpecAux l [] Merge.stable_nil
  exact Merge.dedupSpecAux_fixed (Merge.dedupSpecAux [] l) [] (by simpa using hst)

namespace MD5
/-!
MD5, as used by `generate_article_id` and the `content_hash` duplicate
detection in `src/scripts/generate_inshorts_playwright.py`
(`hashlib.md5(...).hexdigest()`).  Bytes and 32-bit words are `Nat`s with
explicit reduction mod 2^32.
-/

/-- Bitwise complement within 32 bits (arguments stay below 2^32). -/
def mnot (x : Nat) : Nat := 4294967295 - x

/-- 32-bit left rotation. -/
def rotl32 (x s : Nat) : Nat := ((x <<< s) % 4294967296) ||| (x >>> (32 - s))

/-- Round function F (rounds 0–15). -/
def fF (b c d : Nat) : Nat := (b &&& c) ||| (mnot b &&& d)

/-- Round function G (rounds 16–31). -/
def fG (b c d : Nat) : Nat := (b &&& d) ||| (c &&& mnot d)

/-- Round function H (rounds 32–47). -/
def fH (b c d : Nat) : Nat := b ^^^ c ^^^ d

/-- Round function I (rounds 48–63). -/
def fI (b c d : Nat) : Nat := c ^^^ (b ||| mnot d)

/-- The 64 sine-derived constants `K[i] = floor(|sin(i+1)| * 2^32)`. -/
def K : List Nat :=
  [3614090360, 3905402710, 606105819, 3250441966, 4118548399, 1200080426, 2821735955, 4249261313,
   1770035416, 2336552879, 4294925233, 2304563134, 1804603682, 4254626195, 2792965006, 1236535329,
   4129170786, 3225465664, 643717713, 3921069994, 3593408605, 38016083, 3634488961, 3889429448,
   568446438, 3275163606, 4107603335, 1163531501, 2850285829, 4243563512, 1735328473, 2368359562,
   4294588738, 2272392833, 1839030562, 4259657740, 2763975236, 1272893353, 4139469664, 3200236656,
   681279174, 3936430074, 3572445317, 76029189, 3654602809, 3873151461, 530742520, 3299628645,
   4096336452, 1126891415, 2878612391, 4237533241, 1700485571, 2399980690, 4293915773, 2240044497,
   1873313359, 4264355552, 2734768916, 1309151649, 4149444226, 3174756917, 718787259, 3951481745]

/-- The per-round left-rotation amounts. -/
def S : List Nat :=
  [7, 12, 17, 22, 7, 12, 17, 22, 7, 12, 17, 22, 7, 12, 17, 22,
   5, 9, 14, 20, 5, 9, 14, 20, 5, 9, 14, 20, 5, 9, 14, 20,
   4, 11, 16, 23, 4, 11, 16, 23, 4, 11, 16, 23, 4, 11, 16, 23,
   6, 10, 15, 21, 6, 10, 15, 21, 6, 10, 15, 21, 6, 10, 15, 21]

/-- Little-endian 32-bit word `g` of a 64-byte block. -/
def word (block : List Nat) (g : Nat) : Nat :=
  block.getD (4 * g) 0 + 256 * block.getD (4 * g + 1) 0 +
    65536 * block.getD (4 * g + 2) 0 + 16777216 * block.getD (4 * g + 3) 0

/-- One MD5 round on the running `(a, b, c, d)` state. -/
def round (block : List Nat) (st : Nat × Nat × Nat × Nat) (i : Nat) : Nat × Nat × Nat × Nat :=
  let a := st.1
  let b := st.2.1
  let c := st.2.2.1
  let d := st.2.2.2
  let f :=
    if i < 16 then fF b c d
    else if i < 32 then fG b c d
    else if i < 48 then fH b c d
    else fI b c d
  let g :=
    if i < 16 then i
    else if i < 32 then (5 * i + 1) % 16
    else if i < 48 then (3 * i + 5) % 16
    else (7 * i) % 16
  let x := (a + f + K.getD i 0 + word block g) % 4294967296
  (d, (b + rotl32 x (S.getD i 0)) % 4294967296, b, c)

/-- Process one 64-byte block. -/
def processBlock (st : Nat × Nat × Nat × Nat) (block : List Nat) : Nat × Nat × Nat × Nat :=
  let r := (List.range 64).foldl (round block) st
  ((st.1 + r.1) % 4294967296, (st.2.1 + r.2.1) % 4294967296,
   (st.2.2.1 + r.2.2.1) % 4294967296, (st.2.2.2 + r.2.2.2) % 4294967296)

/-- Process `n` consecutive 64-byte blocks. -/
def processBlocks : Nat → List Nat → Nat × Nat × Nat × Nat → Nat × Nat × Nat × Nat
  | 0, _, st => st
  | n + 1, msg, st => processBlocks n (msg.drop 64) (processBlock st (msg.take 64))

/-- The 8-byte little-endian encoding of the bit length. -/
def lenBytes (v : Nat) : List Nat :=
  [v % 256, v / 256 % 256, v / 65536 % 256, v / 16777216 % 256,
   v / 4294967296 % 256, v / 1099511627776 % 256,
   v / 281474976710656 % 256, v / 72057594037927936 % 256]

/-- MD5 padding: `0x80`, zeros to 56 mod 64, then the 64-bit bit length. -/
def pad (msg : List Nat) : List Nat :=
  msg ++ [128] ++ List.replicate ((119 - msg.length % 64) % 64) 0 ++
    lenBytes ((8 * msg.length) % 18446744073709551616)

/-- Little-endian 4-byte encoding of a 32-bit word. -/
def le4 (v : Nat) : List Nat :=
  [v % 256, v / 256 % 256, v / 65536 % 256, v / 16777216 % 256]

/-- Lowercase hex digit code point. -/
def hexDigit (n : Nat) : Nat := if n < 10 then 48 + n else 87 + n

/-- Two-digit lowercase hex of one byte. -/
def byteHex (b : Nat) : List Nat := [hexDigit (b / 16), hexDigit (b % 16)]

/-- Hex-encode a byte list (the `hexdigest`). -/
def hexBytes : List Nat → Str
  | [] => []
  | b :: bs => byteHex b ++ hexBytes bs

/-- `hashlib.md5(bytes).hexdigest()` over a byte list. -/
def md5hex (msg : List Nat) : Str :=
  let p := pad msg
  let r := processBlocks (p.length / 64) p (1732584193, 4023233417, 2562383102, 271733878)
  hexBytes (le4 r.1 ++ le4 r.2.1 ++ le4 r.2.2.1 ++ le4 r.2.2.2)

/-- UTF-8 encoding of one code point (Python `str.encode()`). -/
def utf8Ch (c : Nat) : List Nat :=
  if c < 128 then [c]
  else if c < 2048 then [192 + c / 64, 128 + c % 64]
  else if c < 65536 then [224 + c / 4096, 128 + c / 64 % 64, 128 + c % 64]
  else [240 + c / 262144, 128 + c / 4096 % 64, 128 + c / 64 % 64, 128 + c % 64]

/-- UTF-8 encoding of a string. -/
def utf8 : Str → List Nat
  | [] => []
  | c :: cs => utf8Ch c ++ utf8 cs

end MD5

namespace Pipeline
/-!
Embedding of `process_single_article_playwright` (lines 1838–1902) and the
batch loop of `process_news_data_playwright` (lines 1950–1970) of
`src/scripts/generate_inshorts_playwright.py`.  Browser navigation and DOM
extraction are opaque: each article comes with the `ExtractResult` dict
that `extract_article_details_playwright` returned for it.
`generate_key_points` is passed as an opaque function `kp` — no claim
under scrutiny depends on its value.  The `max_articles` slicing,
logging and timing around the loop are plumbing.
-/

/-- Python truthiness of an optional string (`None` and `""` are falsy). -/
def truthy (o : Option Str) : Bool :=
  match o with
  | none => false
  | some s => !s.isEmpty

/-- Python `x or dflt` for an optional string. -/
def orDefault (o : Option Str) (dflt : Str) : Str :=
  match o with
  | none => dflt
  | some s => if s.isEmpty then dflt else s

/-- The dict returned by `extract_article_details_playwright`; `error` is
`some msg` exactly when the dict carries an `'error'` key. -/
structure ExtractResult where
  resolved_url : Option Str
  image_url : Option Str
  title : Option Str
  description : Option Str
  error : Option Str
deriving DecidableEq

/-- A raw feed entry as read with `article.get(...)`; `none` models a
missing key. -/
structure ArticleInput where
  title : Option Str
  link : Option Str
  source : Option Str
  published : Option Str
deriving DecidableEq

/-- The processed-article dict built by `process_single_article_playwright`;
`error = some msg` exactly when the dict carries an `'error'` key, and
absent keys of the error-shaped dicts are `none`/`[]`. -/
structure ProcessedArticle where
  id : Str
  title : Str
  source : Str
  url : Str
  image_url : Option Str
  description : Option Str
  key_points : List Str
  published : Str
  content_hash : Option Str
  error : Option Str
deriving DecidableEq

/-- `generate_article_id` (lines 2072–2076):
`md5(f"{url}|{title}|{source}".encode()).hexdigest()`. -/
def generate_article_id (url title source : Str) : Str :=
  MD5.md5hex (MD5.utf8 (url ++ str "|" ++ title ++ str "|" ++ source))

/-- The early-return dict of the redirect resolver when no valid external
article link is found on an aggregator page (lines 1551–1560). -/
def googleNewsRedirectFailed (url : Str) : ExtractResult where
  resolved_url := some url
  image_url := some (str "https://via.placeholder.com/300x150?text=Google+News+Redirect+Failed")
  title := some (str "Google News Redirect Failed")
  description := some (str "Could not resolve Google News URL to actual article")
  error := some (str "Google News redirect failed")

/-- `process_single_article_playwright` (lines 1838–1890), `kp` standing
for `generate_key_points`.  Note: the assembled dict has no `'error'`
key, whatever `d.error` is, and the id is the hash of the *input link*,
while the `url` field is `resolved_url or url`. -/
def process_single_article (kp : Str → Str → List Str) (a : ArticleInput) (d : ExtractResult) :
    ProcessedArticle :=
  let input_title := a.title.getD (str "Unknown Title")
  let source := a.source.getD (str "Unknown Source")
  let published := a.published.getD []
  if truthy a.link then
    let url := a.link.getD []
    let final_title := orDefault d.title input_title
    let article_id := generate_article_id url final_title source
    let content_hash :=
      if truthy d.description then
        some (MD5.md5hex (MD5.utf8 ((d.description.getD []).take 200)))
      else none
    let key_points :=
      if truthy d.description then kp (d.description.getD []) final_title else []
    { id := article_id
      title := final_title
      source := source
      url := orDefault d.resolved_url url
      image_url := d.image_url
      description := d.description
      key_points := key_points
      published := published
      content_hash := content_hash
      error := none }
  else
    { id := str "no-url"
      title := input_title
      source := source
      url := []
      image_url := some (str "https://via.placeholder.com/300x150?text=No+URL")
      description := none
      key_points := []
      published := published
      content_hash := none
      error := some (str "No URL provided") }

/-- `is_duplicate_content` (lines 509–512): compare the md5 of the first
200 characters against the `content_hash` of the processed articles. -/
def is_duplicate_content (content : Str) (existing : List ProcessedArticle) : Bool :=
  let content_hash := MD5.md5hex (MD5.utf8 (content.take 200))
  existing.any fun article => article.content_hash == some content_hash

/-- One iteration of the batch loop (lines 1950–1961): skip the result
when it has no `'error'` key, a truthy description, and duplicate
content; otherwise append it. -/
def processStep (kp : Str → Str → List Str) (acc : List ProcessedArticle)
    (x : ArticleInput × ExtractResult) : List ProcessedArticle :=
  let result := process_single_article kp x.1 x.2
  if result.error == none && truthy result.description &&
      is_duplicate_content (result.description.getD []) acc then
    acc
  else acc ++ [result]

/-- The batch loop of `process_news_data_playwright`. -/
def process_news_data (kp : Str → Str → List Str)
    (inputs : List (ArticleInput × ExtractResult)) : List ProcessedArticle :=
  inputs.foldl (processStep kp) []

end Pipeline

/-- Field equations of `process_single_article` in the normal (link
present) branch: the id hashes the input link together with the final
title and source. -/
lemma psa_fields (kp : Str → Str → List Str) (a : Pipeline.ArticleInput)
    (d : Pipeline.ExtractResult) (h : Pipeline.truthy a.link = true) :
    (Pipeline.process_single_article kp a d).id =
      Pipeline.generate_article_id (a.link.getD [])
        (Pipeline.process_single_article kp a d).title
        (Pipeline.process_single_article kp a d).source ∧
    (Pipeline.process_single_article kp a d).title =
      Pipeline.orDefault d.title (a.title.getD (str "Unknown Title")) ∧
    (Pipeline.process_single_article kp a d).source =
      a.source.getD (str "Unknown Source") ∧
    (Pipeline.process_single_article kp a d).error = none := by
  simp [Pipeline.process_single_article, h]

/-- **C1** counterexample: two raw entries with different aggregator links
but identical resolved URL, final title and source receive different ids —
the id is a hash of the *original link*, not of the resolved URL, so it is
not a function of the `(resolvedUrl, title, source)` triple. -/
theorem article_id_counterexample :
    (Pipeline.process_single_article (fun _ _ => [])
        ⟨some (str "Feed title"), some (str "http://l1.example"), some (str "S"), some []⟩
        ⟨some (str "http://r.example/article"), none, some (str "T"), none, none⟩).url =
      (Pipeline.process_single_article (fun _ _ => [])
        ⟨some (str "Feed title"), some (str "http://l2.example"), some (str "S"), some []⟩
        ⟨some (str "http://r.example/article"), none, some (str "T"), none, none⟩).url ∧
    (Pipeline.process_single_article (fun _ _ => [])
        ⟨some (str "Feed title"), some (str "http://l1.example"), some (str "S"), some []⟩
        ⟨some (str "http://r.example/article"), none, some (str "T"), none, none⟩).title =
      (Pipeline.process_single_article (fun _ _ => [])
        ⟨some (str "Feed title"), some (str "http://l2.example"), some (str "S"), some []⟩
        ⟨some (str "http://r.example/article"), none, some (str "T"), none, none⟩).title ∧
    (Pipeline.process_single_article (fun _ _ => [])
        ⟨some (str "Feed title"), some (str "http://l1.example"), some (str "S"), some []⟩
        ⟨some (str "http://r.example/article"), none, some (str "T"), none, none⟩).source =
      (Pipeline.process_single_article (fun _ _ => [])
        ⟨some (str "Feed title"), some (str "http://l2.example"), some (str "S"), some []⟩
        ⟨some (str "http://r.example/article"), none, some (str "T"), none, none⟩).source ∧
    (Pipeline.process_single_article (fun _ _ => [])
        ⟨some (str "Feed title"), some (str "http://l1.example"), some (str "S"), some []⟩
        ⟨some (str "http://r.example/article"), none, some (str "T"), none, none⟩).id ≠
      (Pipeline.process_single_article (fun _ _ => [])
        ⟨some (str "Feed title"), some (str "http://l2.example"), some (str "S"), some []⟩
        ⟨some (str "http://r.example/article"), none, some (str "T"), none, none⟩).id := by
  refine ⟨by decide, by decide, by decide, by decide⟩

/-- **C1** (amended): the id is the md5 hash of
`originalLink|finalTitle|source`, a deterministic pure function of the
*input link*, final title and source: two processed articles with the same
input link, final title and source always receive the same id (the
resolved URL plays no role). -/
theorem article_id_pure_function
    (kp kp' : Str → Str → List Str) (a a' : Pipeline.ArticleInput)
    (d d' : Pipeline.ExtractResult)
    (h : Pipeline.truthy a.link = true) (h' : Pipeline.truthy a'.link = true)
    (hl : a.link = a'.link)
    (ht : (Pipeline.process_single_article kp a d).title =
      (Pipeline.process_single_article kp' a' d').title)
    (hs : (Pipeline.process_single_article kp a d).source =
      (Pipeline.process_single_article kp' a' d').source) :
    (Pipeline.process_single_article kp a d).id =
      Pipeline.generate_article_id (a.link.getD [])
        (Pipeline.process_single_article kp a d).title
        (Pipeline.process_single_article kp a d).source ∧
    (Pipeline.process_single_article kp a d).id =
      (Pipeline.process_single_article kp' a' d').id := by
  obtain ⟨e1, -, -, -⟩ := psa_fields kp a d h
  obtain ⟨e1', -, -, -⟩ := psa_fields kp' a' d' h'
  refine ⟨e1, ?_⟩
  rw [e1, e1', hl, ht, hs]

/-- Witness for the amended C1 theorem. -/
theorem article_id_pure_function_witness :
    Pipeline.truthy (some (str "http://l1.example")) = true ∧
    (Pipeline.process_single_article (fun _ _ => [])
        ⟨some (str "A"), some (str "http://l1.example"), some (str "S"), some []⟩
        ⟨some (str "http://r1.example"), none, some (str "T"), none, none⟩).id =
      (Pipeline.process_single_article (fun _ _ => [])
        ⟨some (str "B"), some (str "http://l1.example"), some (str "S"), some []⟩
        ⟨some (str "http://r2.example"), none, some (str "T"), none, none⟩).id :=
  ⟨by decide,
   (article_id_pure_function (fun _ _ => []) (fun _ _ => [])
      ⟨some (str "A"), some (str "http://l1.example"), some (str "S"), some []⟩
      ⟨some (str "B"), some (str "http://l1.example"), some (str "S"), some []⟩
      ⟨some (str "http://r1.example"), none, some (str "T"), none, none⟩
      ⟨some (str "http://r2.example"), none, some (str "T"), none, none⟩
      (by decide) (by decide) rfl (by decide) (by decide)).2⟩

/-- **C9** counterexample: a batch of two aggregator articles whose
redirects both fail to resolve produces only ONE output record, and that
record carries no error flag.  The resolver's error dict is rebuilt into a
normal record (the `'error'` key is not propagated), every redirect-failed
article shares the fixed failure description, so the second one is
silently skipped by the duplicate-content check. -/
theorem redirect_failure_counterexample :
    (Pipeline.process_news_data (fun _ _ => [])
        [(⟨some (str "T1"), some (str "http://news.google.com/articles/1"), some (str "S"), some []⟩,
          Pipeline.googleNewsRedirectFailed (str "http://news.google.com/articles/1")),
         (⟨some (str "T2"), some (str "http://news.google.com/articles/2"), some (str "S"), some []⟩,
          Pipeline.googleNewsRedirectFailed (str "http://news.google.com/articles/2"))]).length
      = 1 ∧
    ∀ r ∈ Pipeline.process_news_data (fun _ _ => [])
        [(⟨some (str "T1"), some (str "http://news.google.com/articles/1"), some (str "S"), some []⟩,
          Pipeline.googleNewsRedirectFailed (str "http://news.google.com/articles/1")),
         (⟨some (str "T2"), some (str "http://news.google.com/articles/2"), some (str "S"), some []⟩,
          Pipeline.googleNewsRedirectFailed (str "http://news.google.com/articles/2"))],
      r.error = none := by
  refine ⟨by decide, by decide⟩

/-- **C9** (amended): when the redirect resolver finds no valid external
link, it returns an explicit error dict with placeholder image and
degraded title, and the assembled record keeps the placeholder image and
degraded title; but the record does NOT carry the error flag, and while
such an article is appended when its content is fresh, a second
redirect-failed article in the same run is silently dropped, because all
redirect-failed articles share the same fixed failure description and
therefore the same content hash. -/
theorem redirect_failure_emission (kp : Str → Str → List Str)
    (a1 a2 : Pipeline.ArticleInput) (u1 u2 : Str)
    (h1 : Pipeline.truthy a1.link = true) (h2 : Pipeline.truthy a2.link = true) :
    Pipeline.processStep kp [] (a1, Pipeline.googleNewsRedirectFailed u1) =
      [Pipeline.process_single_article kp a1 (Pipeline.googleNewsRedirectFailed u1)] ∧
    (Pipeline.process_single_article kp a1 (Pipeline.googleNewsRedirectFailed u1)).error = none ∧
    (Pipeline.process_single_article kp a1 (Pipeline.googleNewsRedirectFailed u1)).image_url =
      some (str "https://via.placeholder.com/300x150?text=Google+News+Redirect+Failed") ∧
    (Pipeline.process_single_article kp a1 (Pipeline.googleNewsRedirectFailed u1)).title =
      str "Google News Redirect Failed" ∧
    Pipeline.processStep kp
        [Pipeline.process_single_article kp a1 (Pipeline.googleNewsRedirectFailed u1)]
        (a2, Pipeline.googleNewsRedirectFailed u2) =
      [Pipeline.process_single_article kp a1 (Pipeline.googleNewsRedirectFailed u1)] := by
  have hT : (str "Google News Redirect Failed").isEmpty = false := by decide
  have hD : Pipeline.truthy (some (str "Could not resolve Google News URL to actual article"))
      = true := by decide
  refine ⟨?_, ?_, ?_, ?_, ?_⟩
  · unfold Pipeline.processStep
    simp [Pipeline.is_duplicate_content]
  · exact (psa_fields kp a1 _ h1).2.2.2
  · simp [Pipeline.process_single_article, h1, Pipeline.googleNewsRedirectFailed]
  · simp [Pipeline.process_single_article, h1, Pipeline.googleNewsRedirectFailed,
      Pipeline.orDefault, hT]
  · have hr2e : (Pipeline.process_single_article kp a2
        (Pipeline.googleNewsRedirectFailed u2)).error = none :=
      (psa_fields kp a2 _ h2).2.2.2
    have hr2d : (Pipeline.process_single_article kp a2
        (Pipeline.googleNewsRedirectFailed u2)).description =
        some (str "Could not resolve Google News URL to actual article") := by
      simp [Pipeline.process_single_article, h2, Pipeline.googleNewsRedirectFailed]
    have hr1h : (Pipeline.process_single_article kp a1
        (Pipeline.googleNewsRedirectFailed u1)).content_hash =
        some (MD5.md5hex (MD5.utf8
          ((str "Could not resolve Google News URL to actual article").take 200))) := by
      simp [Pipeline.process_single_article, h1, Pipeline.googleNewsRedirectFailed, hD]
    have hdup : Pipeline.is_duplicate_content
        ((Pipeline.process_single_article kp a2
            (Pipeline.googleNewsRedirectFailed u2)).description.getD [])
        [Pipeline.process_single_article kp a1 (Pipeline.googleNewsRedirectFailed u1)]
        = true := by
      rw [hr2d]
      simp [Pipeline.is_duplicate_content, hr1h]
    simp only [Pipeline.processStep]
    split_ifs with hc
    · rfl
    · refine absurd ?_ hc
      simp only [Bool.and_eq_true, beq_iff_eq]
      refine ⟨⟨hr2e, ?_⟩, hdup⟩
      rw [hr2d]
      exact hD

/-- Witness for the amended C9 theorem at concrete inputs: the second
redirect-failed article leaves the accumulated list unchanged. -/
theorem redirect_failure_emission_witness :
    Pipeline.truthy (some (str "http://news.google.com/articles/1")) = true ∧
    Pipeline.processStep (fun _ _ => [])
        [Pipeline.process_single_article (fun _ _ => [])
            ⟨some (str "T1"), some (str "http://news.google.com/articles/1"), some (str "S"), some []⟩
            (Pipeline.googleNewsRedirectFailed (str "http://news.google.com/articles/1"))]
        (⟨some (str "T2"), some (str "http://news.google.com/articles/2"), some (str "S"), some []⟩,
          Pipeline.googleNewsRedirectFailed (str "http://news.google.com/articles/2")) =
      [Pipeline.process_single_article (fun _ _ => [])
          ⟨some (str "T1"), some (str "http://news.google.com/articles/1"), some (str "S"), some []⟩
          (Pipeline.googleNewsRedirectFailed (str "http://news.google.com/articles/1"))] :=
  ⟨by decide,
   (redirect_failure_emission (fun _ _ => [])
      ⟨some (str "T1"), some (str "http://news.google.com/articles/1"), some (str "S"), some []⟩
      ⟨some (str "T2"), some (str "http://news.google.com/articles/2"), some (str "S"), some []⟩
      (str "http://news.google.com/articles/1") (str "http://news.google.com/articles/2")
      (by decide) (by decide)).2.2.2.2⟩

/-- **C10**: during batch processing, a result with no `'error'` key and a
truthy description whose first-200-chars md5 equals the `content_hash` of
a previously accepted article is skipped entirely (the accumulated list is
unchanged), and a result carrying an `'error'` key is always appended. -/
theorem duplicate_content_skip (kp : Str → Str → List Str)
    (acc : List Pipeline.ProcessedArticle) (a : Pipeline.ArticleInput)
    (d : Pipeline.ExtractResult) :
    ((Pipeline.process_single_article kp a d).error = none →
      Pipeline.truthy (Pipeline.process_single_article kp a d).description = true →
      (∃ prev ∈ acc, prev.content_hash =
        some (MD5.md5hex (MD5.utf8
          (((Pipeline.process_single_article kp a d).description.getD []).take 200)))) →
      Pipeline.processStep kp acc (a, d) = acc) ∧
    ((Pipeline.process_single_article kp a d).error ≠ none →
      Pipeline.processStep kp acc (a, d) = acc ++ [Pipeline.process_single_article kp a d]) := by
  constructor
  · intro he hd hex
    rcases hex with ⟨prev, hm, hh⟩
    have hdup : Pipeline.is_duplicate_content
        ((Pipeline.process_single_article kp a d).description.getD []) acc = true := by
      unfold Pipeline.is_duplicate_content
      exact List.any_eq_true.2 ⟨prev, hm, beq_iff_eq.2 hh⟩
    simp only [Pipeline.processStep]
    split_ifs with hc
    · rfl
    · refine absurd ?_ hc
      simp only [Bool.and_eq_true, beq_iff_eq]
      exact ⟨⟨he, hd⟩, hdup⟩
  · intro he
    simp only [Pipeline.processStep]
    split_ifs with hc
    · simp only [Bool.and_eq_true, beq_iff_eq] at hc
      exact absurd hc.1.1 he
    · rfl

/-- Witness for the C10 theorem: a second article with the same
description as an already-accepted one is skipped. -/
theorem duplicate_content_skip_witness :
    Pipeline.processStep (fun _ _ => [])
        [Pipeline.process_single_article (fun _ _ => [])
            ⟨some (str "T"), some (str "http://x.example"), some (str "S"), some []⟩
            ⟨none, none, some (str "T"), some (str "A reasonably long description for the test."), none⟩]
        (⟨some (str "T"), some (str "http://x.example"), some (str "S"), some []⟩,
          ⟨none, none, some (str "T"), some (str "A reasonably long description for the test."), none⟩) =
      [Pipeline.process_single_article (fun _ _ => [])
          ⟨some (str "T"), some (str "http://x.example"), some (str "S"), some []⟩
          ⟨none, none, some (str "T"), some (str "A reasonably long description for the test."), none⟩] :=
  (duplicate_content_skip (fun _ _ => [])
      [Pipeline.process_single_article (fun _ _ => [])
          ⟨some (str "T"), some (str "http://x.example"), some (str "S"), some []⟩
          ⟨none, none, some (str "T"), some (str "A reasonably long description for the test."), none⟩]
      ⟨some (str "T"), some (str "http://x.example"), some (str "S"), some []⟩
      ⟨none, none, some (str "T"), some (str "A reasonably long description for the test."), none⟩).1
    (by decide) (by decide)
    ⟨Pipeline.process_single_article (fun _ _ => [])
        ⟨some (str "T"), some (str "http://x.example"), some (str "S"), some []⟩
        ⟨none, none, some (str "T"), some (str "A reasonably long description for the test."), none⟩,
      by simp, by decide⟩

namespace ContentExtract
/-!
Embedding of `extract_clean_article_content` (lines 130–362) and
`_clean_content` (lines 365–381) of
`src/scripts/generate_inshorts_playwright.py`.  DOM queries are opaque:
a `PageData` carries the text each selector / paragraph / meta tag
yielded.  The specific regex substitutions of `_clean_content` are
translated as direct string functions with Python `re.sub` leftmost
semantics.
-/

/-- ASCII uppercase letter. -/
def isUpperCh (c : Nat) : Bool := 65 ≤ c && c ≤ 90

/-- ASCII lowercase letter. -/
def isLowerCh (c : Nat) : Bool := 97 ≤ c && c ≤ 122

/-- `re.sub(r'\s+', ' ', content)`: collapse whitespace runs to one
space. The Bool flag says whether we are inside a run. -/
def normWsAux : Str → Bool → Str
  | [], _ => []
  | c :: cs, inRun =>
    if isWs c then
      if inRun then normWsAux cs true else 32 :: normWsAux cs true
    else c :: normWsAux cs false

/-- Whitespace normalization. -/
def normWs (s : Str) : Str := normWsAux s false

/-- Truncate at the leftmost position whose suffix matches `f`
(`re.sub(pattern-to-end-of-string, '', s)`). -/
def truncAt (f : Str → Bool) : Str → Str
  | [] => []
  | c :: cs => if f (c :: cs) then [] else c :: truncAt f cs

/-- Does the suffix start with `\s*\|\s*Latest News`? -/
def matchPipeLatest (l : Str) : Bool :=
  match l.dropWhile isWs with
  | 124 :: rest => prefixOfB (str "Latest News") (rest.dropWhile isWs)
  | _ => false

/-- Does the suffix match `\s*\|\s*[A-Z][a-z]+\s*$` exactly to the end? -/
def matchPipeWordEnd (l : Str) : Bool :=
  match l.dropWhile isWs with
  | 124 :: rest =>
    match rest.dropWhile isWs with
    | u :: rest2 =>
      isUpperCh u &&
        (let lw := rest2.takeWhile isLowerCh
         !lw.isEmpty && (rest2.drop lw.length).all isWs)
    | [] => false
  | _ => false

/-- Case-insensitive prefix test (for the `re.IGNORECASE` substitution). -/
def ciPrefix (needle hay : Str) : Bool := prefixOfB (pyLower needle) (pyLower hay)

/-- Does the suffix start with `\s*(Read more|Continue reading|View full
article)` case-insensitively? -/
def matchReadMore (l : Str) : Bool :=
  let l2 := l.dropWhile isWs
  ciPrefix (str "Read more") l2 || ciPrefix (str "Continue reading") l2 ||
    ciPrefix (str "View full article") l2

/-- Try the alternation `(Updated|Published|Last updated|Posted)` at the
start and return the rest of the string. -/
def altPrefixRest (l : Str) : Option Str :=
  if prefixOfB (str "Updated") l then some (l.drop 7)
  else if prefixOfB (str "Published") l then some (l.drop 9)
  else if prefixOfB (str "Last updated") l then some (l.drop 12)
  else if prefixOfB (str "Posted") l then some (l.drop 6)
  else none

/-- `re.sub(r'^(Updated|Published|Last updated|Posted):\s*[^.]*\.\s*', '', l)`. -/
def stripUpdatedPrefix (l : Str) : Str :=
  match altPrefixRest l with
  | none => l
  | some rest =>
    match rest with
    | 58 :: rest2 =>
      match (rest2.dropWhile isWs).dropWhile (fun c => !(c == 46)) with
      | 46 :: rest4 => rest4.dropWhile isWs
      | _ => l
    | _ => l

/-- `_clean_content` (lines 365–381): whitespace normalization, the four
boilerplate substitutions in source order, final strip. -/
def clean_content (content : Str) : Str :=
  if content.isEmpty then []
  else
    pyStrip (truncAt matchReadMore (stripUpdatedPrefix
      (truncAt matchPipeWordEnd (truncAt matchPipeLatest (normWs content)))))

/-- `skip_words` of the meaningful-paragraph strategy. -/
def skipWords : List Str :=
  [str "subscribe", str "sign in", str "newsletter", str "follow us", str "share this",
   str "advertisement", str "sponsored", str "cookie", str "privacy policy",
   str "terms of service", str "read more", str "click here", str "related articles",
   str "also read", str "trending now", str "breaking news", str "live updates",
   str "watch video", str "photo gallery", str "you may like", str "recommended",
   str "sponsored content", str "latest news", str "more news", str "top stories",
   str "view all", str "see more", str "load more", str "show more", str "continue reading"]

/-- Python `str.isupper()` on ASCII: at least one cased character and no
lowercase one. -/
def pyIsUpper (s : Str) : Bool :=
  s.any (fun c => isUpperCh c || isLowerCh c) && s.all fun c => !isLowerCh c

/-- `re.match(r'^[A-Z\s]+$', s)`. -/
def allUpperWs (s : Str) : Bool :=
  !s.isEmpty && s.all fun c => isUpperCh c || isWs c

/-- `re.match(r'^[0-9\s\-\|\:]+$', s)`. -/
def allDateChars (s : Str) : Bool :=
  !s.isEmpty && s.all fun c => (48 ≤ c && c ≤ 57) || isWs c || c == 45 || c == 124 || c == 58

/-- The paragraph filter of strategy 2 (lines 210–231), applied to the
stripped paragraph text. -/
def paragraphOk (p : Str) : Bool :=
  decide (50 < p.length) &&
  !(skipWords.any fun w => containsStr (pyLower p) w) &&
  !pyIsUpper p &&
  !allUpperWs p &&
  !allDateChars p &&
  !(prefixOfB (str "Updated") p || prefixOfB (str "Published") p ||
    prefixOfB (str "Last updated") p || prefixOfB (str "Posted") p) &&
  !((p.drop (p.length - 20)).contains 124) &&
  decide (10 < (pyWords p).length)

/-- `' '.join(...)`. -/
def joinSp : List Str → Str
  | [] => []
  | [x] => x
  | x :: y :: xs => x ++ 32 :: joinSp (y :: xs)

/-- The paragraph-accumulation loop with its 1200-character early break. -/
def collectParas : List Str → List Str → List Str
  | [], acc => acc
  | p :: ps, acc =>
    let t := pyStrip p
    if paragraphOk t then
      let acc2 := acc ++ [t]
      if 1200 < (joinSp acc2).length then acc2 else collectParas ps acc2
    else collectParas ps acc

/-- Which strategy produced a candidate (the `source` tag string of the
candidate dict, abstracted to the strategy). -/
inductive CandSrc
  | semantic
  | paragraphs
  | divSel
  | metaDesc
  | ogDesc
deriving DecidableEq

/-- A content candidate dict `{content, source, length}`. -/
structure Candidate where
  content : Str
  src : CandSrc
  length : Nat
deriving DecidableEq

/-- The text the page yielded for each extraction query, in source order:
one entry per semantic selector (site-specific ones prepended), the
paragraph texts, one entry per div selector, and the meta/OG description
attributes.  `none` models a selector with no element (or a missing
attribute). -/
structure PageData where
  selectorText : List (Option Str)
  paragraphs : List Str
  divText : List (Option Str)
  metaDescription : Option Str
  ogDescription : Option Str
  pageTitle : Str

/-- Strategy 1 (semantic/article selectors): raw text > 500 chars and
cleaned text > 300 chars. -/
def semanticCands (l : List (Option Str)) : List Candidate :=
  l.filterMap fun o =>
    match o with
    | some content =>
      if !content.isEmpty && decide (500 < (pyStrip content).length) then
        let cleaned := clean_content (pyStrip content)
        if 300 < cleaned.length then some ⟨cleaned, .semantic, cleaned.length⟩ else none
      else none
    | none => none

/-- Strategy 2 (meaningful paragraphs): join the first 7 accepted
paragraphs, cleaned text > 200 chars. -/
def paragraphCand (paragraphs : List Str) : List Candidate :=
  let ms := collectParas paragraphs []
  if !ms.isEmpty then
    let cleaned := clean_content (joinSp (ms.take 7))
    if 200 < cleaned.length then [⟨cleaned, .paragraphs, cleaned.length⟩] else []
  else []

/-- Strategy 3 (generic div selectors): raw text > 400 chars and cleaned
text > 250 chars. -/
def divCands (l : List (Option Str)) : List Candidate :=
  l.filterMap fun o =>
    match o with
    | some content =>
      if !content.isEmpty && decide (400 < (pyStrip content).length) then
        let cleaned := clean_content (pyStrip content)
        if 250 < cleaned.length then some ⟨cleaned, .divSel, cleaned.length⟩ else none
      else none
    | none => none

/-- Strategy 4 (meta description): only the RAW stripped length is
checked (> 100); the cleaned text is appended without a further check. -/
def metaCand (o : Option Str) : List Candidate :=
  match o with
  | some d =>
    if !d.isEmpty && decide (100 < (pyStrip d).length) then
      let cleaned := clean_content (pyStrip d)
      [⟨cleaned, .metaDesc, cleaned.length⟩]
    else []
  | none => []

/-- Strategy 5 (Open-Graph description): same shape as strategy 4. -/
def ogCand (o : Option Str) : List Candidate :=
  match o with
  | some d =>
    if !d.isEmpty && decide (100 < (pyStrip d).length) then
      let cleaned := clean_content (pyStrip d)
      [⟨cleaned, .ogDesc, cleaned.length⟩]
    else []
  | none => []

/-- All candidates in the order the strategies append them. -/
def collectCandidates (pd : PageData) : List Candidate :=
  semanticCands pd.selectorText ++ paragraphCand pd.paragraphs ++
    divCands pd.divText ++ metaCand pd.metaDescription ++ ogCand pd.ogDescription

/-- Stable insertion for the descending-by-length sort. -/
def insertByLen (c : Candidate) : List Candidate → List Candidate
  | [] => [c]
  | x :: xs => if x.length ≤ c.length then c :: x :: xs else x :: insertByLen c xs

/-- `content_candidates.sort(key=lambda x: x['length'], reverse=True)` —
Python's sort is stable, and a stable descending sort is unique, so
insertion sort (which inserts each element before the later-in-input
elements of equal length) computes it. -/
def sortByLenDesc : List Candidate → List Candidate
  | [] => []
  | c :: cs => insertByLen c (sortByLenDesc cs)

/-- Maximal word-character runs (`re.findall(r'\b\w{4,}\b', ...)` matches
exactly the maximal `\w`-runs of length ≥ 4). -/
def isWordCh (c : Nat) : Bool :=
  (48 ≤ c && c ≤ 57) || (65 ≤ c && c ≤ 90) || (97 ≤ c && c ≤ 122) || c == 95

/-- Accumulate maximal word runs. -/
def wordRunsAux : Str → Str → List Str
  | [], acc => if acc.isEmpty then [] else [acc.reverse]
  | c :: cs, acc =>
    if isWordCh c then wordRunsAux cs (c :: acc)
    else if acc.isEmpty then wordRunsAux cs [] else acc.reverse :: wordRunsAux cs []

/-- `title_terms = set(re.findall(r'\b\w{4,}\b', title.lower()))`. -/
def titleTerms (title : Str) : List Str :=
  ((wordRunsAux (pyLower title) []).filter fun w => 4 ≤ w.length).dedup

/-- `validate_content_relevance` (lines 494–507): at least 30% of the
title terms must occur in the content. -/
def validate_content_relevance (content title : Str) : Bool :=
  !content.isEmpty && !title.isEmpty &&
    (let terms := titleTerms title
     let matching := (terms.filter fun t => containsStr (pyLower content) t).length
     decide (3 * terms.length ≤ 10 * matching))

/-- `s.split('.')` keeping empty pieces. -/
def splitOnChAux (ch : Nat) : Str → Str → List Str
  | [], acc => [acc.reverse]
  | c :: cs, acc =>
    if c == ch then acc.reverse :: splitOnChAux ch cs [] else splitOnChAux ch cs (c :: acc)

/-- `'.'.join(...)`. -/
def joinDot : List Str → Str
  | [] => []
  | [x] => x
  | x :: y :: xs => x ++ 46 :: joinDot (y :: xs)

/-- The 5000-character cap with sentence/word-boundary cut
(lines 343–354). -/
def truncateContent (c : Str) : Str :=
  if 5000 < c.length then
    let sentences := splitOnChAux 46 (c.take 5000) []
    if 1 < sentences.length then
      joinDot sentences.dropLast ++ [46]
    else
      joinSp (pyWords (c.take 5000)).dropLast ++ str "..."
  else c

/-- The explicit no-content sentinel. -/
def noContentSentinel : Str := str "Article content could not be extracted."

/-- `extract_clean_article_content`: collect candidates, sort by length
descending, prefer title-relevant substantial content, then substantial
content, then the longest; cap the final length; fall back to the
sentinel when no candidate was collected.  (The second sentinel of the
source, `"Error extracting article content."`, is produced only by the
exception handler, which the embedding has no inputs for.) -/
def extract_clean_article_content (pd : PageData) : Str :=
  let cands := sortByLenDesc (collectCandidates pd)
  match cands with
  | [] => noContentSentinel
  | best0 :: _ =>
    let best :=
      match cands.find? (fun (c : Candidate) =>
          validate_content_relevance c.content pd.pageTitle && decide (300 < c.length)) with
      | some c => c
      | none =>
        match cands.find? (fun (c : Candidate) => decide (300 < c.length)) with
        | some c => c
        | none => best0
    truncateContent best.content

end ContentExtract

namespace ContentExtract

lemma insertByLen_ne_nil (c : Candidate) (l : List Candidate) : insertByLen c l ≠ [] := by
  cases l with
  | nil => simp [insertByLen]
  | cons x xs => unfold insertByLen; split_ifs <;> simp

lemma mem_insertByLen {x c : Candidate} {l : List Candidate} :
    x ∈ insertByLen c l ↔ x = c ∨ x ∈ l := by
  induction l with
  | nil => simp [insertByLen]
  | cons y ys ih =>
    unfold insertByLen
    split_ifs with h
    · simp
    · simp only [List.mem_cons, ih]
      tauto

lemma mem_sortByLenDesc {x : Candidate} {l : List Candidate} :
    x ∈ sortByLenDesc l ↔ x ∈ l := by
  induction l with
  | nil => simp [sortByLenDesc]
  | cons c cs ih => simp [sortByLenDesc, mem_insertByLen, ih]

lemma sortByLenDesc_nil_iff {l : List Candidate} : sortByLenDesc l = [] ↔ l = [] := by
  cases l with
  | nil => simp [sortByLenDesc]
  | cons c cs =>
    simp only [sortByLenDesc]
    constructor
    · intro h; exact absurd h (insertByLen_ne_nil c _)
    · intro h; exact absurd h (List.cons_ne_nil c cs)

lemma semanticCands_mem {l : List (Option Str)} {c : Candidate} (h : c ∈ semanticCands l) :
    c.src = CandSrc.semantic ∧ 300 < c.length ∧ c.length = c.content.length := by
  unfold semanticCands at h
  rcases List.mem_filterMap.1 h with ⟨o, -, ho⟩
  cases o with
  | none => simp at ho
  | some content =>
    simp only [] at ho
    split_ifs at ho with h1 h2
    · obtain rfl := Option.some.inj ho
      exact ⟨rfl, h2, rfl⟩

lemma divCands_mem {l : List (Option Str)} {c : Candidate} (h : c ∈ divCands l) :
    c.src = CandSrc.divSel ∧ 250 < c.length ∧ c.length = c.content.length := by
  unfold divCands at h
  rcases List.mem_filterMap.1 h with ⟨o, -, ho⟩
  cases o with
  | none => simp at ho
  | some content =>
    simp only [] at ho
    split_ifs at ho with h1 h2
    · obtain rfl := Option.some.inj ho
      exact ⟨rfl, h2, rfl⟩

lemma paragraphCand_mem {ps : List Str} {c : Candidate} (h : c ∈ paragraphCand ps) :
    c.src = CandSrc.paragraphs ∧ 200 < c.length ∧ c.length = c.content.length := by
  unfold paragraphCand at h
  dsimp only [] at h
  split_ifs at h with h1 h2
  · rcases List.mem_singleton.1 h with rfl
    exact ⟨rfl, h2, rfl⟩
  · exact absurd h (List.not_mem_nil c)
  · exact absurd h (List.not_mem_nil c)

lemma metaCand_mem {o : Option Str} {c : Candidate} (h : c ∈ metaCand o) :
    c.src = CandSrc.metaDesc ∧ c.length = c.content.length := by
  unfold metaCand at h
  cases o with
  | none => exact absurd h (List.not_mem_nil c)
  | some d =>
    simp only [] at h
    split_ifs at h with h1
    · rcases List.mem_singleton.1 h with rfl
      exact ⟨rfl, rfl⟩
    · exact absurd h (List.not_mem_nil c)

lemma ogCand_mem {o : Option Str} {c : Candidate} (h : c ∈ ogCand o) :
    c.src = CandSrc.ogDesc ∧ c.length = c.content.length := by
  unfold ogCand at h
  cases o with
  | none => exact absurd h (List.not_mem_nil c)
  | some d =>
    simp only [] at h
    split_ifs at h with h1
    · rcases List.mem_singleton.1 h with rfl
      exact ⟨rfl, rfl⟩
    · exact absurd h (List.not_mem_nil c)

end ContentExtract

/-- **C7** counterexample: a page whose only extractable text is a meta
description of raw length > 100 whose tail is a `Read more ...`
boilerplate.  The meta-description strategy checks only the RAW length;
`_clean_content` then cuts everything from `Read more` on, and the
extractor returns the 18-character description `Hello world intro.` —
shorter than the ~50-character minimum and not the sentinel. -/
theorem content_extractor_counterexample :
    ContentExtract.extract_clean_article_content
        ⟨[], [], [],
          some (str "Hello world intro. Read more about this story plus lots of extra text to push the raw length beyond one hundred characters."),
          none, []⟩ = str "Hello world intro." ∧
    (str "Hello world intro.").length < 50 ∧
    str "Hello world intro." ≠ ContentExtract.noContentSentinel := by
  refine ⟨by decide, by decide, by decide⟩

/-- **C7** (amended): candidates collected by the semantic-selector,
meaningful-paragraph and div strategies do satisfy a minimum-substance
bound after cleaning (> 300, > 200 and > 250 characters respectively),
and the no-candidate output is the explicit sentinel; but the meta/OG
description strategies check only the raw (pre-cleaning) length, and the
returned description is the (possibly truncated) text of whichever
candidate wins, so non-sentinel descriptions below the ~50-character
minimum are possible (see the counterexample). -/
theorem content_extractor_minimum_substance (pd : ContentExtract.PageData) :
    (ContentExtract.collectCandidates pd = [] →
      ContentExtract.extract_clean_article_content pd = ContentExtract.noContentSentinel) ∧
    (∀ c ∈ ContentExtract.collectCandidates pd,
      (c.src = ContentExtract.CandSrc.semantic → 300 < c.length) ∧
      (c.src = ContentExtract.CandSrc.paragraphs → 200 < c.length) ∧
      (c.src = ContentExtract.CandSrc.divSel → 250 < c.length) ∧
      c.length = c.content.length) ∧
    (ContentExtract.collectCandidates pd ≠ [] →
      ∃ c ∈ ContentExtract.collectCandidates pd,
        ContentExtract.extract_clean_article_content pd =
          ContentExtract.truncateContent c.content) := by
  refine ⟨?_, ?_, ?_⟩
  · intro h
    unfold ContentExtract.extract_clean_article_content
    rw [h]
    rfl
  · intro c hc
    unfold ContentExtract.collectCandidates at hc
    simp only [List.mem_append] at hc
    rcases hc with (((hs | hp) | hd) | hm) | ho
    · obtain ⟨e, hl, he⟩ := ContentExtract.semanticCands_mem hs
      refine ⟨fun _ => hl, fun h2 => ?_, fun h3 => ?_, he⟩ <;> rw [e] at * <;> simp_all
    · obtain ⟨e, hl, he⟩ := ContentExtract.paragraphCand_mem hp
      refine ⟨fun h1 => ?_, fun _ => hl, fun h3 => ?_, he⟩ <;> rw [e] at * <;> simp_all
    · obtain ⟨e, hl, he⟩ := ContentExtract.divCands_mem hd
      refine ⟨fun h1 => ?_, fun h2 => ?_, fun _ => hl, he⟩ <;> rw [e] at * <;> simp_all
    · obtain ⟨e, he⟩ := ContentExtract.metaCand_mem hm
      refine ⟨fun h1 => ?_, fun h2 => ?_, fun h3 => ?_, he⟩ <;> rw [e] at * <;> simp_all
    · obtain ⟨e, he⟩ := ContentExtract.ogCand_mem ho
      refine ⟨fun h1 => ?_, fun h2 => ?_, fun h3 => ?_, he⟩ <;> rw [e] at * <;> simp_all
  · intro hne
    unfold ContentExtract.extract_clean_article_content
    rcases hl : ContentExtract.sortByLenDesc (ContentExtract.collectCandidates pd) with
      - | ⟨b, bs⟩
    · exact absurd (ContentExtract.sortByLenDesc_nil_iff.1 hl) hne
    · have hmem : ∀ x, x ∈ b :: bs → x ∈ ContentExtract.collectCandidates pd := by
        intro x hx
        have : x ∈ ContentExtract.sortByLenDesc (ContentExtract.collectCandidates pd) := by
          rw [hl]; exact hx
        exact ContentExtract.mem_sortByLenDesc.1 this
      rcases hf1 : (b :: bs).find? (fun c =>
          ContentExtract.validate_content_relevance c.content pd.pageTitle &&
            decide (300 < c.length)) with - | ⟨c1⟩
      · rcases hf2 : (b :: bs).find? (fun (c : ContentExtract.Candidate) =>
            decide (300 < c.length)) with - | ⟨c2⟩
        · exact ⟨b, hmem b (List.mem_cons_self b bs), by simp only [hf1, hf2]⟩
        · exact ⟨c2, hmem c2 (List.mem_of_find?_eq_some hf2), by simp only [hf1, hf2]⟩
      · exact ⟨c1, hmem c1 (List.mem_of_find?_eq_some hf1), by simp only [hf1]⟩

/-- Witness for the amended C7 theorem at the counterexample page: the
candidate list is nonempty and the returned description is the truncated
content of one of its members. -/
theorem content_extractor_minimum_substance_witness :
    ContentExtract.collectCandidates
        ⟨[], [], [],
          some (str "Hello world intro. Read more about this story plus lots of extra text to push the raw length beyond one hundred characters."),
          none, []⟩ ≠ [] ∧
    ∃ c ∈ ContentExtract.collectCandidates
        ⟨[], [], [],
          some (str "Hello world intro. Read more about this story plus lots of extra text to push the raw length beyond one hundred characters."),
          none, []⟩,
      ContentExtract.extract_clean_article_content
          ⟨[], [], [],
            some (str "Hello world intro. Read more about this story plus lots of extra text to push the raw length beyond one hundred characters."),
            none, []⟩ =
        ContentExtract.truncateContent c.content :=
  ⟨by decide,
   (content_extractor_minimum_substance
      ⟨[], [], [],
        some (str "Hello world intro. Read more about this story plus lots of extra text to push the raw length beyond one hundred characters."),
        none, []⟩).2.2 (by decide)⟩

namespace ImageExtract
/-!
Embedding of the image-selection part of
`extract_article_details_playwright` (lines 1585–1663) and
`is_valid_news_image` (lines 1988–2020).  Attribute reads are opaque
inputs; `none` models a missing attribute.
-/

/-- The attributes read from one `img` element. -/
structure ImgTag where
  src : Option Str
  alt : Option Str
  width : Option Str
  height : Option Str
deriving DecidableEq

/-- The candidate dict `{src, area, alt, width, height}`. -/
structure ImgCandidate where
  src : Str
  area : Int
  alt : Str
  width : Int
  height : Int
deriving DecidableEq

/-- Digit-run parse for `int()`. -/
def digitsToNat (ds : Str) : Option Nat :=
  if ds.isEmpty then none
  else if ds.all (fun c => 48 ≤ c && c ≤ 57) then
    some (ds.foldl (fun a c => 10 * a + (c - 48)) 0)
  else none

/-- Python `int(s)`: strip whitespace, optional sign, decimal digits;
`none` models the `ValueError`. -/
def pyInt (s : Str) : Option Int :=
  match pyStrip s with
  | 43 :: ds => (digitsToNat ds).map Int.ofNat
  | 45 :: ds => (digitsToNat ds).map fun n => -(n : Int)
  | ds => (digitsToNat ds).map Int.ofNat

/-- The candidate-collection loop (lines 1612–1650).  `wPrev`/`hPrev` are
the current values of the Python loop variables `w`/`h`, which leak
across iterations: when `int(width)` raises, the `except` clause sets
`area = 0` and the append uses the stale `w`/`h` (a `NameError` — only
possible before any successful parse — aborts that image via the outer
`except`). -/
def collectImgCands : List ImgTag → Option Int → Option Int → List ImgCandidate
  | [], _, _ => []
  | img :: rest, wPrev, hPrev =>
    match img.src with
    | none => collectImgCands rest wPrev hPrev
    | some src =>
      if !(prefixOfB (str "http://") src || prefixOfB (str "https://") src) then
        collectImgCands rest wPrev hPrev
      else
        let alt := img.alt.getD []
        match (if Pipeline.truthy img.width then pyInt (img.width.getD []) else some 0) with
        | some w =>
          match (if Pipeline.truthy img.height then pyInt (img.height.getD []) else some 0) with
          | some h =>
            let area := if w ≠ 0 ∧ h ≠ 0 then w * h else 0
            ⟨src, area, alt, w, h⟩ :: collectImgCands rest (some w) (some h)
          | none =>
            match hPrev with
            | some hOld => ⟨src, 0, alt, w, hOld⟩ :: collectImgCands rest (some w) (some hOld)
            | none => collectImgCands rest (some w) hPrev
        | none =>
          match wPrev, hPrev with
          | some wOld, some hOld => ⟨src, 0, alt, wOld, hOld⟩ :: collectImgCands rest wPrev hPrev
          | _, _ => collectImgCands rest wPrev hPrev

/-- `img_elements[:30]`, loop variables initially unbound. -/
def collectImages (imgs : List ImgTag) : List ImgCandidate :=
  collectImgCands (imgs.take 30) none none

/-- Stable insertion for the descending-by-area sort. -/
def insertByArea (c : ImgCandidate) : List ImgCandidate → List ImgCandidate
  | [] => [c]
  | x :: xs => if x.area ≤ c.area then c :: x :: xs else x :: insertByArea c xs

/-- `image_candidates.sort(key=lambda x: x['area'], reverse=True)` —
stable descending sort. -/
def sortByAreaDesc : List ImgCandidate → List ImgCandidate
  | [] => []
  | c :: cs => insertByArea c (sortByAreaDesc cs)

/-- `reject_patterns` of `is_valid_news_image`. -/
def rejectPatterns : List Str :=
  [str "logo", str "icon", str "avatar", str "profile", str "thumbnail",
   str "ad", str "banner", str "sponsor", str "widget", str "button",
   str "social", str "facebook", str "twitter", str "instagram",
   str "placeholder", str "default", str "blank", str "spacer"]

/-- `is_valid_news_image` (lines 1988–2020): reject-pattern scan on
lowercased src/alt, minimum dimensions when both are nonzero, aspect-ratio
sanity (`w/h > 4` and `w/h < 0.25` become the exact cross-multiplied
comparisons). -/
def is_valid_news_image (c : ImgCandidate) : Bool :=
  !(rejectPatterns.any fun p =>
      containsStr (pyLower c.src) p || containsStr (pyLower c.alt) p) &&
  !(decide (c.width ≠ 0) && decide (c.height ≠ 0) &&
      (decide (c.width < 200) || decide (c.height < 150))) &&
  !(decide (c.width ≠ 0) && decide (c.height ≠ 0) &&
      decide (0 < c.width) && decide (0 < c.height) &&
      (decide (4 * c.height < c.width) || decide (4 * c.width < c.height)))

/-- The scan winner: first valid candidate of the area-sorted list
(lines 1652–1659). -/
def bestImage (imgs : List ImgTag) : Option Str :=
  ((sortByAreaDesc (collectImages imgs)).find? is_valid_news_image).map fun c => c.src

/-- Python `a or b` on optional strings (`None`/`""` are falsy). -/
def pyOrOpt (a b : Option Str) : Option Str := if Pipeline.truthy a then a else b

/-- The extraction results the image choice depends on. -/
structure DetailsPage where
  og_image : Option Str
  twitter_image : Option Str
  images : List ImgTag

/-- `image_url = og_image or twitter_image or best_image` (line 1663). -/
def chooseImage (p : DetailsPage) : Option Str :=
  pyOrOpt p.og_image (pyOrOpt p.twitter_image (bestImage p.images))

end ImageExtract

/-- **C8** counterexample: a page with no Open-Graph or Twitter image tag
and a single page image whose src contains `logo` (rejected by
`is_valid_news_image`) yields `image_url = None` — not a placeholder
URL.  The placeholder URLs appear only in the error paths of the
resolver, not in the normal selection. -/
theorem image_selection_counterexample :
    ImageExtract.chooseImage
        ⟨none, none,
          [⟨some (str "http://x.example/logo.png"), some [], some (str "300"), some (str "200")⟩]⟩
      = none := by decide

/-- **C8** (amended): the article image is selected in the order
Open-Graph tag, then Twitter-card tag, then the first candidate of the
area-sorted bounded page scan passing `is_valid_news_image`; when no
source qualifies the result is `none` (a missing image URL), not a
placeholder. -/
theorem image_selection_order (p : ImageExtract.DetailsPage) :
    (Pipeline.truthy p.og_image = true → ImageExtract.chooseImage p = p.og_image) ∧
    (Pipeline.truthy p.og_image = false → Pipeline.truthy p.twitter_image = true →
      ImageExtract.chooseImage p = p.twitter_image) ∧
    (Pipeline.truthy p.og_image = false → Pipeline.truthy p.twitter_image = false →
      ImageExtract.chooseImage p = ImageExtract.bestImage p.images) ∧
    (Pipeline.truthy p.og_image = false → Pipeline.truthy p.twitter_image = false →
      (∀ c ∈ ImageExtract.sortByAreaDesc (ImageExtract.collectImages p.images),
        ImageExtract.is_valid_news_image c = false) →
      ImageExtract.chooseImage p = none) := by
  refine ⟨?_, ?_, ?_, ?_⟩
  · intro h
    unfold ImageExtract.chooseImage ImageExtract.pyOrOpt
    rw [if_pos h]
  · intro h1 h2
    unfold ImageExtract.chooseImage ImageExtract.pyOrOpt
    rw [if_neg (by simp [h1]), if_pos h2]
  · intro h1 h2
    unfold ImageExtract.chooseImage ImageExtract.pyOrOpt
    rw [if_neg (by simp [h1]), if_neg (by simp [h2])]
  · intro h1 h2 hall
    unfold ImageExtract.chooseImage ImageExtract.pyOrOpt
    rw [if_neg (by simp [h1]), if_neg (by simp [h2])]
    unfold ImageExtract.bestImage
    rw [List.find?_eq_none.2 (by simpa using hall)]
    rfl

/-- Witness for the amended C8 theorem: with no OG tag and a Twitter-card
image present, the Twitter image is chosen. -/
theorem image_selection_order_witness :
    Pipeline.truthy (none : Option Str) = false ∧
    Pipeline.truthy (some (str "https://cdn.example/pic.jpg")) = true ∧
    ImageExtract.chooseImage ⟨none, some (str "https://cdn.example/pic.jpg"), []⟩ =
      some (str "https://cdn.example/pic.jpg") :=
  ⟨by decide, by decide,
   (image_selection_order ⟨none, some (str "https://cdn.example/pic.jpg"), []⟩).2.1
     (by decide) (by decide)⟩
